import Mathlib

/-!
Shallow embedding of the provider routing and normalization layer of the
crusont-api repository (FastAPI gateway in `api/app/`), covering:

* the model-access validator `RequestValidator._validate_model_access` and the
  request-body validation dependency (`api/app/api/dependencies.py`),
* the authentication dependency `AuthenticationHandler` and the user lookup in
  `api/app/core/db/managers/user_manager.py`,
* the unified chat route `chat_completions` and `UnifiedHandler._get_provider`
  together with `UnifiedHandler._has_vision_requirement`
  (`api/app/api/routes/v1/unified.py`),
* the provider selector (`ProviderManager.get_best_provider` and
  `get_provider_by_name`), whose implementation is not part of the sources at
  hand; it is modelled from the specification (§4.2, §4.3) where marked.

Python dictionaries/Pydantic models become Lean structures, exceptions become
an explicit `Except` result, and the side effects that matter for the claims
(which providers were contacted, whether the handler body ran) are recorded in
an explicit outcome structure.
-/

namespace Crusont

/-- Truthiness of an optional string, matching Python `if voice:` /
`if not token:`: `None` and the empty string are falsy. -/
def strTruthy : Option String → Bool
  | none => false
  | some s => !(s == "")

/-! ## Data model -/

/-- Pricing information of a model (`model_instance.pricing.price`). -/
structure Pricing where
  price : Nat
deriving DecidableEq, Repr

/-- A model's declared endpoint: in the Python source `model_instance.endpoint`
is either a single string or a collection of strings
(`isinstance(model_instance.endpoint, str)` distinguishes the two in
`_validate_model_access`). -/
inductive EndpointDecl where
  | single (e : String)
  | multi (es : List String)
deriving DecidableEq, Repr

/-- A Model Registry entry: id, declared endpoint(s), supported voices
(speech models), pricing. -/
structure ModelInfo where
  id : String
  endpoint : EndpointDecl
  voices : List String
  pricing : Pricing
deriving DecidableEq, Repr

/-- A concrete backend provider as the routing layer sees it: unique name,
the model ids it supports, the capabilities it can serve, its current health
score and its declared cost/latency weight. -/
structure Provider where
  name : String
  supported_models : List String
  capability_support : List String
  health : ℚ
  weight : ℚ
deriving DecidableEq, Repr

/-- Structured stand-ins for the `detail` strings of the HTTP error responses
raised by the source (the messages themselves are fixed English text; only
their identity and embedded data matter here).  `tracebackText tb` stands for
`traceback.format_exc()` being used as the response detail. -/
inductive ErrDetail where
  | noApiKey
  | keyNotFound
  | bannedKey
  | badBody
  | unknownModel (model : Option String)
  | endpointMismatch (model : Option String) (endpoint : String)
  | voiceUnsupported (voice : String)
  | noProviderAvailable
  | providerClassNull
  | tracebackText (tb : String)
deriving DecidableEq, Repr

/-- An HTTP error response (`fastapi.HTTPException`): status code plus detail. -/
structure ApiError where
  status_code : Nat
  detail : ErrDetail
deriving DecidableEq, Repr

/-! ## Model Registry lookup -/

/-- Modelled from the spec: `Model.get_model` (the Model Registry lookup in
`app/providers`, not among the sources at hand).  Spec §3: a Model is
"looked up by id; unknown id is a validation error", so the lookup returns
the registry entry with the requested id, if any.  The Python call sites pass
`body.get('model')`, which may be `None`; no registry entry matches then. -/
def get_model (registry : List ModelInfo) : Option String → Option ModelInfo
  | none => none
  | some m => registry.find? (fun mi => mi.id == m)

/-! ## Request validation (`RequestValidator._validate_model_access`) -/

/-- The endpoint-compatibility test of `_validate_model_access`
(`dependencies.py` lines 105-108): a single declared endpoint must equal the
request endpoint; a declared collection must contain it. -/
def is_endpoint_mismatch (decl : EndpointDecl) (endpoint : String) : Bool :=
  match decl with
  | .single e => !(e == endpoint)
  | .multi es => !(es.contains endpoint)

/-- `RequestValidator._validate_model_access` (`dependencies.py` lines 87-133):
unknown model → 400; endpoint mismatch → 400; on the speech endpoint with a
truthy voice, a voice outside the model's voice list → 400; otherwise ok.
The `user_tier` argument is accepted and ignored, as in the source
("All models are now free and accessible - no restrictions"). -/
def validate_model_access (registry : List ModelInfo) (model : Option String)
    (endpoint : String) (voice : Option String) (_user_tier : Nat) :
    Except ApiError Unit :=
  match get_model registry model with
  | none => .error ⟨400, .unknownModel model⟩
  | some model_instance =>
    if is_endpoint_mismatch model_instance.endpoint endpoint then
      .error ⟨400, .endpointMismatch model endpoint⟩
    else if endpoint == "/v1/audio/speech" && strTruthy voice then
      match voice with
      | some v =>
        if !(model_instance.voices.contains v) then
          .error ⟨400, .voiceUnsupported v⟩
        else
          .ok ()
      | none => .ok ()
    else
      .ok ()

/-! ## Authentication (`AuthenticationHandler`, `user_manager.py`) -/

/-- A user record as the authentication path reads it (`user['banned']`,
`user.get('premium_tier', 0)`). -/
structure UserRec where
  user_id : Nat
  banned : Bool
  premium_tier : Nat
deriving DecidableEq, Repr

/-- The persistent state the authentication path consults
(`UserManager` over the `api_keys` and `users` collections):
API keys mapping to a user id, and users by id. -/
structure UserDb where
  api_keys : List (String × Nat)
  users : List (Nat × UserRec)
deriving DecidableEq, Repr

/-- `UserManager.get_user(key=key)` (`user_manager.py` lines 20-38): find the
API-key document by key, then the user owning it; `None` when either lookup
fails. -/
def get_user (db : UserDb) (key : String) : Option UserRec :=
  match db.api_keys.find? (fun kv => kv.1 == key) with
  | none => none
  | some kv =>
    match db.users.find? (fun uv => uv.1 == kv.2) with
    | none => none
    | some uv => some uv.2

/-- Python `str.replace(pat, rep)` on character lists: scan left to right,
replacing every non-overlapping occurrence of `pat` (the replacement text is
not rescanned).  Fuel-indexed structural recursion; with a non-empty pattern
each step consumes at least one character, so fuel equal to the input length
suffices. -/
def pyReplaceAux (pat rep : List Char) : Nat → List Char → List Char
  | 0, s => s
  | fuel + 1, s =>
    if !pat.isEmpty && pat.isPrefixOf s then
      rep ++ pyReplaceAux pat rep fuel (s.drop pat.length)
    else
      match s with
      | [] => []
      | c :: cs => c :: pyReplaceAux pat rep fuel cs

/-- Python `str.replace`, as used by `token.replace('Bearer ', '')`. -/
def pyReplace (s pat rep : String) : String :=
  ⟨pyReplaceAux pat.data rep.data s.data.length s.data⟩

/-- `AuthenticationHandler._get_api_key` (`dependencies.py` lines 10-21):
a missing (or empty, via Python truthiness) Authorization header is a 401;
otherwise every occurrence of `Bearer ` is removed from the token. -/
def get_api_key : Option String → Except ApiError String
  | none => .error ⟨401, .noApiKey⟩
  | some t =>
    if t == "" then .error ⟨401, .noApiKey⟩
    else .ok (pyReplace t "Bearer " "")

/-- `AuthenticationHandler._validate_user` (`dependencies.py` lines 23-49):
unknown key → 401, banned user → 403, otherwise the user record.
(The `update_api_key_last_used` bookkeeping write has no bearing on the
response and is not modelled.) -/
def validate_user (db : UserDb) (key : String) : Except ApiError UserRec :=
  match get_user db key with
  | none => .error ⟨401, .keyNotFound⟩
  | some user =>
    if user.banned then
      .error ⟨403, .bannedKey⟩
    else
      .ok user

/-- The `authentication` dependency (`dependencies.py` lines 135-140):
extract the key from the Authorization header, then validate the user. -/
def authentication (db : UserDb) (authHeader : Option String) :
    Except ApiError UserRec :=
  match get_api_key authHeader with
  | .error e => .error e
  | .ok key => validate_user db key

/-! ## Provider selection -/

/-- Modelled from the spec: `ProviderManager.get_provider_by_name`
(`app/core`, not among the sources at hand).  Spec §4.2 gives the Provider
Registry contract `by_name(name) -> Provider | NotFound`: a lookup by provider
name alone.  (The call site `_get_provider` in `unified.py` passes only the
name, so no other datum is available to this lookup.) -/
def get_provider_by_name (providers : List Provider) (name : String) :
    Option Provider :=
  providers.find? (fun p => p.name == name)

/-- Whether a provider declares support for a model id (spec §4.3 step 2:
"providers whose `supported_models` includes `model_id`"). -/
def supportsModel (p : Provider) (model : String) : Bool :=
  p.supported_models.contains model

/-- Spec §4.3 step 2 eligibility: supports the model, covers vision/tools when
required, and health is currently positive. -/
def eligibleProvider (model : String) (vision_required tools_required : Bool)
    (p : Provider) : Bool :=
  supportsModel p model &&
  (!vision_required || p.capability_support.contains "vision") &&
  (!tools_required || p.capability_support.contains "tools") &&
  decide (0 < p.health)

/-- Strict lexicographic order on character lists (the usual string order,
written out so it evaluates). -/
def lexLt : List Char → List Char → Bool
  | [], [] => false
  | [], _ :: _ => true
  | _ :: _, [] => false
  | a :: as, b :: bs =>
    if a < b then true
    else if b < a then false
    else lexLt as bs

/-- Lexicographic comparison of provider names. -/
def nameLt (a b : String) : Bool :=
  lexLt a.data b.data

/-- Spec §4.3 step 3 tie-break, as a strict preference: better health first,
then lower declared cost/latency weight, then lexicographically smaller
provider name. -/
def betterProvider (p q : Provider) : Bool :=
  if p.health ≠ q.health then decide (q.health < p.health)
  else if p.weight ≠ q.weight then decide (p.weight < q.weight)
  else nameLt p.name q.name

/-- The deterministic choice of spec §4.3 steps 3-4: the best provider of a
list under `betterProvider`, `none` on the empty list. -/
def selectBest : List Provider → Option Provider
  | [] => none
  | p :: ps =>
    match selectBest ps with
    | none => some p
    | some q => if betterProvider p q then some p else some q

/-- Modelled from the spec: `ProviderManager.get_best_provider` (`app/core`,
not among the sources at hand).  Spec §4.3 steps 2-4: filter the registry to
eligible providers, tie-break deterministically (best health, then lowest
weight, then lexicographic name), and return `none` when no provider remains.
(Wildcard family matches in `supported_models` are represented by listing the
matching ids explicitly.) -/
def get_best_provider (providers : List Provider) (model : String)
    (vision_required tools_required : Bool) : Option Provider :=
  selectBest (providers.filter (eligibleProvider model vision_required tools_required))

/-! ## Chat requests and the vision-requirement detector -/

/-- One item of a structured message content list; in the source each item has
a `type` field (`'text'`, `'image_url'`, ...) plus a payload, of which only the
type is examined by the routing layer. -/
structure ContentPart where
  type : String
  payload : String
deriving DecidableEq, Repr

/-- Message content is either a plain string or a list of typed parts
(`isinstance(message.content, list)` distinguishes the two). -/
inductive MessageContent where
  | str (s : String)
  | parts (ps : List ContentPart)
deriving DecidableEq, Repr

/-- A chat message as `_has_vision_requirement` reads it. -/
structure ChatMessage where
  role : String
  content : MessageContent
deriving DecidableEq, Repr

/-- The body of a `POST /v1/chat/completions` request (`ChatRequest`), the
fields the routing layer looks at: model id, messages, tool definitions
(empty list for Python `None`/`[]`, both falsy at the `tools_required=`
call site), and the optional `provider_name` override (empty string for
Python `None`/`''`, both falsy at `if data.provider_name:`). -/
structure ChatReq where
  model : String
  messages : List ChatMessage
  tools : List String
  provider_name : String
deriving DecidableEq, Repr

/-- `UnifiedHandler._has_vision_requirement` (`unified.py` lines 75-81):
true iff some message's content is a list with an item of type `image_url`. -/
def has_vision_requirement (messages : List ChatMessage) : Bool :=
  messages.any (fun message =>
    match message.content with
    | .parts content => content.any (fun c => c.type == "image_url")
    | .str _ => false)

/-! ## The unified chat route -/

/-- `UnifiedHandler._get_provider` (`unified.py` lines 50-63): with a truthy
`name`, look the provider up by name; otherwise ask the selector for the best
provider; a missing result raises `NoProviderAvailableError`, which the route
converts to an HTTP error with the exception's status code — modelled from the
spec (§7) as 503, the class itself (`app/api/exceptions`) not being among the
sources at hand. -/
def unified_get_provider (providers : List Provider) (model : String)
    (vision_required tools_required : Bool) (name : String) :
    Except ApiError Provider :=
  let provider :=
    if name ≠ "" then
      get_provider_by_name providers name
    else
      get_best_provider providers model vision_required tools_required
  match provider with
  | none => .error ⟨503, .noProviderAvailable⟩
  | some p => .ok p

/-- The provider-choice step of `chat_completions` (`unified.py` lines
93-104): with a truthy `provider_name` the requirements are not computed and
only the name path runs; otherwise vision is detected from the messages and
the raw `tools` value is passed for `tools_required` (Python truthiness:
non-empty list). -/
def chatSelectProvider (providers : List Provider) (data : ChatReq) :
    Except ApiError Provider :=
  if data.provider_name ≠ "" then
    unified_get_provider providers data.model false false data.provider_name
  else
    let vision_required := has_vision_requirement data.messages
    unified_get_provider providers data.model vision_required
      (!(data.tools == [])) ""

/-- What one invocation of a provider adapter's `chat_completions` does:
return a response (status code and body), or raise.  The raised exception is
either an `HTTPException`, a `NoProviderAvailableError`, or any other Python
exception, carrying the text `traceback.format_exc()` would produce. -/
inductive AdapterResult where
  | ok (status : Nat) (body : String)
  | httpExc (e : ApiError)
  | noProviderExc
  | otherExc (tb : String)
deriving DecidableEq, Repr

/-- Everything the chat route needs from its surroundings: the registries,
the user store, the set of names `BaseProvider.get_provider_class` resolves,
and the behaviour of each adapter's upstream call. -/
structure Env where
  models : List ModelInfo
  providers : List Provider
  db : UserDb
  provider_classes : List String
  adapter : String → ChatReq → AdapterResult

/-- Outcome of one request: the response (or error) sent to the caller, the
names of the providers whose adapter was actually invoked (upstream
contacted), and whether the route handler body was entered at all. -/
structure Outcome where
  result : Except ApiError (Nat × String)
  contacted : List String
  handlerEntered : Bool

/-- The body of `chat_completions` (`unified.py` lines 85-137) after the
dependencies have run: choose a provider (name override or automatic),
resolve the provider class (a missing class is a 500), invoke the adapter,
and map raised exceptions exactly as the `try/except` ladder does —
`NoProviderAvailableError`/`InsufficientCreditsError` become
`HTTPException(e.status_code, str(e))`, an `HTTPException` is re-raised, and
any other exception becomes `HTTPException(500, traceback.format_exc())`. -/
def chat_completions_handler (env : Env) (data : ChatReq) : Outcome :=
  match chatSelectProvider env.providers data with
  | .error e => ⟨.error e, [], true⟩
  | .ok provider =>
    if !(env.provider_classes.contains provider.name) then
      ⟨.error ⟨500, .providerClassNull⟩, [], true⟩
    else
      match env.adapter provider.name data with
      | .ok status body => ⟨.ok (status, body), [provider.name], true⟩
      | .httpExc e => ⟨.error e, [provider.name], true⟩
      | .noProviderExc => ⟨.error ⟨503, .noProviderAvailable⟩, [provider.name], true⟩
      | .otherExc tb => ⟨.error ⟨500, .tracebackText tb⟩, [provider.name], true⟩

/-- Modelled from the spec: the route's dependency list `DEPENDENCIES`
(`app/api/constants`, not among the sources at hand).  Spec §6: the
Authentication collaborator "resolves and returns a user/key identity or
rejects with 401/403 before the Dispatcher runs", and the data flow (§2) puts
Model Registry validation before provider selection; accordingly the
dependencies run in the order `authentication`, `validate_user_access`
(a no-op in the source), `validate_request_body`, and only then the handler
body.  A dependency failure means the handler is never entered and no
provider is contacted. -/
def run_chat_completions (env : Env) (authHeader : Option String)
    (data : ChatReq) : Outcome :=
  match authentication env.db authHeader with
  | .error e => ⟨.error e, [], false⟩
  | .ok user =>
    match validate_model_access env.models (some data.model)
        "/v1/chat/completions" none user.premium_tier with
    | .error e => ⟨.error e, [], false⟩
    | .ok _ => chat_completions_handler env data

/-! ## Concrete fixtures (used by the witness theorems) -/

/-- A chat model declaring the single endpoint `/v1/chat/completions`. -/
def gpt4Chat : ModelInfo := ⟨"gpt-4", .single "/v1/chat/completions", [], ⟨3⟩⟩

/-- A speech model with two voices. -/
def ttsModel : ModelInfo := ⟨"tts-1", .single "/v1/audio/speech", ["alloy", "nova"], ⟨1⟩⟩

/-- A regular user, key `k1`. -/
def aliceUser : UserRec := ⟨1, false, 0⟩

/-- A banned user, key `k2`. -/
def bobUser : UserRec := ⟨2, true, 0⟩

/-- A user store with one regular and one banned user. -/
def sampleDb : UserDb := ⟨[("k1", 1), ("k2", 2)], [(1, aliceUser), (2, bobUser)]⟩

/-- Provider `A`: best health, supports `gpt-4`, no vision. -/
def providerA : Provider := ⟨"A", ["gpt-4"], ["tools"], 10, 1⟩

/-- Provider `B`: lower health than `A`, supports `gpt-4` with vision. -/
def visionProviderB : Provider := ⟨"B", ["gpt-4"], ["vision", "tools"], 8, 1⟩

/-- Provider `B` variant that does not list `gpt-4`. -/
def providerNoGpt : Provider := ⟨"B", ["claude-3"], ["vision"], 10, 1⟩

/-- An adapter that always answers 200. -/
def baseAdapter : String → ChatReq → AdapterResult := fun _ _ => .ok 200 "done"

/-- The main fixture environment. -/
def envMain : Env :=
  ⟨[gpt4Chat, ttsModel], [providerA, visionProviderB], sampleDb, ["A", "B"], baseAdapter⟩

/-- Environment whose only provider lacks vision support. -/
def envNoVision : Env := ⟨[gpt4Chat], [providerA], sampleDb, ["A"], baseAdapter⟩

/-- Environment with an empty provider registry. -/
def envEmpty : Env := ⟨[gpt4Chat], [], sampleDb, [], baseAdapter⟩

/-- The traceback text of an unexpected adapter exception. -/
def tracebackDemo : String :=
  "Traceback (most recent call last):\n  ...\nValueError: boom"

/-- Environment whose adapter raises an unexpected exception. -/
def envRaising : Env :=
  ⟨[gpt4Chat], [providerA], sampleDb, ["A"], fun _ _ => .otherExc tracebackDemo⟩

/-- A plain text chat request for `gpt-4`, no override. -/
def plainChatReq : ChatReq := ⟨"gpt-4", [⟨"user", .str "hi"⟩], [], ""⟩

/-- A chat request whose model id is not registered. -/
def noSuchModelReq : ChatReq := ⟨"nope", [], [], ""⟩

/-- A message whose content list contains an image item. -/
def imageMessage : ChatMessage :=
  ⟨"user", .parts [⟨"image_url", "https://example.com/cat.png"⟩]⟩

/-- A chat request with an image attachment and no override. -/
def visionChatReq : ChatReq := ⟨"gpt-4", [imageMessage], [], ""⟩

/-! ## Order properties of the selector tie-break -/

theorem lexLt_irrefl (l : List Char) : lexLt l l = false := by
  induction l with
  | nil => rfl
  | cons a as ih =>
    unfold lexLt
    rw [if_neg (lt_irrefl a), if_neg (lt_irrefl a)]
    exact ih

theorem lexLt_asymm (l : List Char) : ∀ m, lexLt l m = true → lexLt m l = false := by
  induction l with
  | nil =>
    intro m h
    cases m with
    | nil => simp [lexLt] at h
    | cons b bs => rfl
  | cons a as ih =>
    intro m h
    cases m with
    | nil => simp [lexLt] at h
    | cons b bs =>
      unfold lexLt at h ⊢
      rcases lt_trichotomy a b with hab | hab | hab
      · rw [if_neg (lt_asymm hab), if_pos hab]
      · subst hab
        rw [if_neg (lt_irrefl a), if_neg (lt_irrefl a)] at h ⊢
        exact ih bs h
      · rw [if_neg (lt_asymm hab), if_pos hab] at h
        exact absurd h (by simp)

theorem lexLt_trans (l : List Char) :
    ∀ m n, lexLt l m = true → lexLt m n = true → lexLt l n = true := by
  induction l with
  | nil =>
    intro m n hlm hmn
    cases m with
    | nil => simp [lexLt] at hlm
    | cons b bs =>
      cases n with
      | nil => simp [lexLt] at hmn
      | cons c cs => rfl
  | cons a as ih =>
    intro m n hlm hmn
    cases m with
    | nil => simp [lexLt] at hlm
    | cons b bs =>
      cases n with
      | nil => simp [lexLt] at hmn
      | cons c cs =>
        unfold lexLt at hlm hmn ⊢
        rcases lt_trichotomy a b with hab | hab | hab
        · rcases lt_trichotomy b c with hbc | hbc | hbc
          · rw [if_pos (lt_trans hab hbc)]
          · subst hbc; rw [if_pos hab]
          · rw [if_neg (lt_asymm hbc), if_pos hbc] at hmn
            exact absurd hmn (by simp)
        · subst hab
          rcases lt_trichotomy a c with hac | hac | hac
          · rw [if_pos hac]
          · subst hac
            rw [if_neg (lt_irrefl a), if_neg (lt_irrefl a)] at hlm hmn ⊢
            exact ih bs cs hlm hmn
          · rw [if_neg (lt_asymm hac), if_pos hac] at hmn
            exact absurd hmn (by simp)
        · rw [if_neg (lt_asymm hab), if_pos hab] at hlm
          exact absurd hlm (by simp)

theorem lexLt_total_of_ne (l : List Char) :
    ∀ m, l ≠ m → lexLt l m = true ∨ lexLt m l = true := by
  induction l with
  | nil =>
    intro m hne
    cases m with
    | nil => exact absurd rfl hne
    | cons b bs => exact .inl rfl
  | cons a as ih =>
    intro m hne
    cases m with
    | nil => exact .inr rfl
    | cons b bs =>
      rcases lt_trichotomy a b with hab | hab | hab
      · left; unfold lexLt; rw [if_pos hab]
      · subst hab
        have hne' : as ≠ bs := by
          intro h; exact hne (by rw [h])
        rcases ih bs hne' with h | h
        · left; unfold lexLt
          rw [if_neg (lt_irrefl a), if_neg (lt_irrefl a)]; exact h
        · right; unfold lexLt
          rw [if_neg (lt_irrefl a), if_neg (lt_irrefl a)]; exact h
      · right; unfold lexLt; rw [if_pos hab]

theorem nameLt_total_of_ne (a b : String) (h : a ≠ b) :
    nameLt a b = true ∨ nameLt b a = true :=
  lexLt_total_of_ne a.data b.data (fun hd => h (by cases a; cases b; simp_all))

theorem nameLt_asymm (a b : String) (h : nameLt a b = true) : nameLt b a = false :=
  lexLt_asymm _ _ h

theorem nameLt_trans (a b c : String) (hab : nameLt a b = true)
    (hbc : nameLt b c = true) : nameLt a c = true :=
  lexLt_trans _ _ _ hab hbc

theorem betterProvider_irrefl (p : Provider) : betterProvider p p = false := by
  simp [betterProvider, nameLt, lexLt_irrefl]

theorem betterProvider_asymm (p q : Provider) (h : betterProvider p q = true) :
    betterProvider q p = false := by
  unfold betterProvider at h ⊢
  by_cases h1 : p.health = q.health
  · by_cases h2 : p.weight = q.weight
    · simp [h1, h2] at h ⊢
      exact nameLt_asymm _ _ h
    · simp [h1, h2, Ne.symm h2] at h ⊢
      exact le_of_lt h
  · simp [h1, Ne.symm h1] at h ⊢
    exact le_of_lt h

theorem betterProvider_trans (p q r : Provider) (hpq : betterProvider p q = true)
    (hqr : betterProvider q r = true) : betterProvider p r = true := by
  unfold betterProvider at hpq hqr ⊢
  by_cases h1 : p.health = q.health
  · by_cases h2 : q.health = r.health
    · simp [h1, h2] at hpq hqr ⊢
      by_cases h3 : p.weight = q.weight
      · by_cases h4 : q.weight = r.weight
        · simp [h3, h4] at hpq hqr ⊢
          exact nameLt_trans _ _ _ hpq hqr
        · simp [h3, h4] at hpq hqr ⊢
          exact hqr
      · by_cases h4 : q.weight = r.weight
        · simp [h3, ← h4] at hpq ⊢
          exact hpq
        · simp [h3, h4] at hpq hqr
          have hpr := lt_trans hpq hqr
          simp [ne_of_lt hpr]
          exact hpr
    · simp [h2] at hqr
      have hlt : r.health < p.health := by rw [h1]; exact hqr
      simp [ne_of_gt hlt]
      exact hlt
  · simp [h1] at hpq
    by_cases h2 : q.health = r.health
    · have hlt : r.health < p.health := by rw [← h2]; exact hpq
      simp [ne_of_gt hlt]
      exact hlt
    · simp [h2] at hqr
      have hlt : r.health < p.health := lt_trans hqr hpq
      simp [ne_of_gt hlt]
      exact hlt

theorem betterProvider_total_of_ne_name (p q : Provider) (h : p.name ≠ q.name) :
    betterProvider p q = true ∨ betterProvider q p = true := by
  unfold betterProvider
  by_cases h1 : p.health = q.health
  · by_cases h2 : p.weight = q.weight
    · simp [h1, h2]
      exact nameLt_total_of_ne p.name q.name h
    · simp [h1, h2, Ne.symm h2]
  · simp [h1, Ne.symm h1]

/-! ## Properties of the deterministic choice -/

theorem selectBest_eq_none_iff (l : List Provider) : selectBest l = none ↔ l = [] := by
  cases l with
  | nil => simp [selectBest]
  | cons p ps =>
    constructor
    · intro h
      exfalso
      unfold selectBest at h
      cases hs : selectBest ps with
      | none =>
        rw [hs] at h
        simp only [] at h
        exact Option.noConfusion h
      | some q =>
        rw [hs] at h
        simp only [] at h
        split at h <;> exact Option.noConfusion h
    · intro h
      exact absurd h (List.cons_ne_nil p ps)

theorem selectBest_mem (l : List Provider) : ∀ p, selectBest l = some p → p ∈ l := by
  induction l with
  | nil => intro p h; simp [selectBest] at h
  | cons a as ih =>
    intro p h
    unfold selectBest at h
    cases hs : selectBest as with
    | none =>
      rw [hs] at h
      simp only [] at h
      cases h
      exact List.mem_cons_self a as
    | some q =>
      rw [hs] at h
      simp only [] at h
      by_cases hb : betterProvider a q = true
      · rw [if_pos hb] at h
        cases h
        exact List.mem_cons_self a as
      · rw [if_neg hb] at h
        cases h
        exact List.mem_cons_of_mem a (ih _ hs)

theorem selectBest_min (l : List Provider) : ∀ p, selectBest l = some p →
    ∀ q ∈ l, betterProvider q p = false := by
  induction l with
  | nil => intro p h; simp [selectBest] at h
  | cons a as ih =>
    intro p h q hq
    unfold selectBest at h
    cases hs : selectBest as with
    | none =>
      rw [hs] at h
      simp only [] at h
      cases h
      have has : as = [] := (selectBest_eq_none_iff as).mp hs
      subst has
      rcases List.mem_cons.mp hq with rfl | hq'
      · exact betterProvider_irrefl q
      · exact absurd hq' (List.not_mem_nil q)
    | some b =>
      rw [hs] at h
      simp only [] at h
      by_cases hb : betterProvider a b = true
      · rw [if_pos hb] at h
        cases h
        rcases List.mem_cons.mp hq with rfl | hq'
        · exact betterProvider_irrefl q
        · have h1 := ih b hs q hq'
          rw [Bool.eq_false_iff]
          intro ht
          exact (Bool.eq_false_iff.mp h1) (betterProvider_trans q a b ht hb)
      · rw [if_neg hb] at h
        cases h
        rcases List.mem_cons.mp hq with rfl | hq'
        · exact Bool.eq_false_iff.mpr hb
        · exact ih p hs q hq'

/-- Among providers with pairwise-distinct names, a common lower bound in the
`betterProvider` preference is unique. -/
theorem betterProvider_min_unique (l : List Provider)
    (hnames : l.Pairwise (fun p q => p.name ≠ q.name))
    (p1 p2 : Provider) (h1 : p1 ∈ l) (h2 : p2 ∈ l)
    (m1 : ∀ q ∈ l, betterProvider q p1 = false)
    (m2 : ∀ q ∈ l, betterProvider q p2 = false) : p1 = p2 := by
  by_contra hne
  have hname : p1.name ≠ p2.name :=
    List.Pairwise.forall (fun _ _ hab => hab.symm) hnames h1 h2 hne
  rcases betterProvider_total_of_ne_name p1 p2 hname with hb | hb
  · exact (Bool.eq_false_iff.mp (m2 p1 h1)) hb
  · exact (Bool.eq_false_iff.mp (m1 p2 h2)) hb

/-- The deterministic choice depends only on the collection of candidates,
not on the order the registry enumerates them, provided names are unique. -/
theorem selectBest_perm (l1 l2 : List Provider)
    (hnames : l1.Pairwise (fun p q => p.name ≠ q.name))
    (hperm : l1.Perm l2) : selectBest l1 = selectBest l2 := by
  cases h1 : selectBest l1 with
  | none =>
    have hl1 : l1 = [] := (selectBest_eq_none_iff l1).mp h1
    subst hl1
    have hl2 : l2 = [] := (hperm.symm).eq_nil
    subst hl2
    rfl
  | some p =>
    have hp1 : p ∈ l1 := selectBest_mem _ _ h1
    have hp2 : p ∈ l2 := hperm.mem_iff.mp hp1
    cases h2 : selectBest l2 with
    | none =>
      have hl2 : l2 = [] := (selectBest_eq_none_iff l2).mp h2
      subst hl2
      exact absurd hp2 (List.not_mem_nil p)
    | some q =>
      have hq2 : q ∈ l2 := selectBest_mem _ _ h2
      have hq1 : q ∈ l1 := hperm.mem_iff.mpr hq2
      have mp : ∀ r ∈ l1, betterProvider r p = false := selectBest_min _ _ h1
      have mq : ∀ r ∈ l1, betterProvider r q = false := fun r hr =>
        selectBest_min _ _ h2 r (hperm.mem_iff.mp hr)
      rw [betterProvider_min_unique l1 hnames p q hp1 hq1 mp mq]

/-! ## Small bridging lemmas -/

theorem contains_eq_false_iff (l : List String) (a : String) :
    l.contains a = false ↔ a ∉ l := by
  simp

/-! ## Claim C1 -/

/-- Claim C1: a request naming a model id that is not in the Model Registry
fails with the 400 validation error during request validation; the handler
body is never entered, so no provider is selected and no upstream backend is
contacted. -/
theorem unknown_model_rejected_before_selection (env : Env)
    (authHeader : Option String) (data : ChatReq) (user : UserRec)
    (hauth : authentication env.db authHeader = .ok user)
    (hmodel : get_model env.models (some data.model) = none) :
    run_chat_completions env authHeader data =
      ⟨.error ⟨400, .unknownModel (some data.model)⟩, [], false⟩ := by
  unfold run_chat_completions
  rw [hauth]
  simp only []
  unfold validate_model_access
  rw [hmodel]

/-- Witness for C1: concrete registry, authenticated user and unknown model. -/
theorem unknown_model_rejected_before_selection_witness :
    authentication envMain.db (some "Bearer k1") = .ok aliceUser ∧
    get_model envMain.models (some "nope") = none ∧
    run_chat_completions envMain (some "Bearer k1") noSuchModelReq =
      ⟨.error ⟨400, .unknownModel (some "nope")⟩, [], false⟩ :=
  ⟨rfl, rfl,
    unknown_model_rejected_before_selection envMain (some "Bearer k1")
      noSuchModelReq aliceUser rfl rfl⟩

/-! ## Claim C5 -/

/-- Claim C5: endpoint compatibility — a model declaring a single endpoint
admits exactly that request endpoint and a declared set admits exactly its
members; any mismatch makes validation fail with a 400 error (the request is
answered by that error, never re-routed). -/
theorem endpoint_mismatch_rejected (registry : List ModelInfo)
    (model : String) (mi : ModelInfo) (endpoint : String)
    (voice : Option String) (tier : Nat)
    (hfind : get_model registry (some model) = some mi) :
    (is_endpoint_mismatch mi.endpoint endpoint = true →
      validate_model_access registry (some model) endpoint voice tier =
        .error ⟨400, .endpointMismatch (some model) endpoint⟩) ∧
    (∀ e, mi.endpoint = .single e →
      (is_endpoint_mismatch mi.endpoint endpoint = false ↔ e = endpoint)) ∧
    (∀ es, mi.endpoint = .multi es →
      (is_endpoint_mismatch mi.endpoint endpoint = false ↔ endpoint ∈ es)) := by
  refine ⟨?_, ?_, ?_⟩
  · intro hmis
    unfold validate_model_access
    rw [hfind]
    simp only []
    rw [if_pos hmis]
  · intro e he
    rw [he]
    simp [is_endpoint_mismatch]
  · intro es hes
    rw [hes]
    simp [is_endpoint_mismatch]

/-- Witness for C5: a chat-only model sent to the speech endpoint is a 400. -/
theorem endpoint_mismatch_rejected_witness :
    is_endpoint_mismatch gpt4Chat.endpoint "/v1/audio/speech" = true ∧
    validate_model_access [gpt4Chat] (some "gpt-4") "/v1/audio/speech" none 0 =
      .error ⟨400, .endpointMismatch (some "gpt-4") "/v1/audio/speech"⟩ :=
  ⟨rfl,
    (endpoint_mismatch_rejected [gpt4Chat] "gpt-4" gpt4Chat "/v1/audio/speech"
      none 0 rfl).1 rfl⟩

/-! ## Claim C8 -/

/-- Claim C8: the voice check fires only on the speech endpoint — there, a
carried (non-empty) voice is rejected with the 400 VoiceUnsupported error
exactly when it is outside the model's declared voice set; on every other
endpoint the validation result does not depend on the voice field at all. -/
theorem voice_check_only_on_speech :
    (∀ (registry : List ModelInfo) (model : String) (mi : ModelInfo)
        (v : String) (tier : Nat),
      get_model registry (some model) = some mi →
      is_endpoint_mismatch mi.endpoint "/v1/audio/speech" = false →
      v ≠ "" →
      ((v ∉ mi.voices →
          validate_model_access registry (some model) "/v1/audio/speech"
            (some v) tier = .error ⟨400, .voiceUnsupported v⟩) ∧
       (v ∈ mi.voices →
          validate_model_access registry (some model) "/v1/audio/speech"
            (some v) tier = .ok ()))) ∧
    (∀ (registry : List ModelInfo) (model : Option String) (endpoint : String)
        (voice : Option String) (tier : Nat),
      endpoint ≠ "/v1/audio/speech" →
      validate_model_access registry model endpoint voice tier =
        validate_model_access registry model endpoint none tier) := by
  constructor
  · intro registry model mi v tier hfind hend hv
    unfold validate_model_access
    rw [hfind]
    simp only []
    rw [if_neg (by simp [hend])]
    rw [if_pos (by simp [strTruthy, hv])]
    constructor
    · intro hmem
      rw [if_pos (by simp [hmem])]
    · intro hmem
      rw [if_neg (by simp [hmem])]
  · intro registry model endpoint voice tier hne
    unfold validate_model_access
    cases get_model registry model with
    | none => rfl
    | some mi =>
      simp only []
      have hee : (endpoint == "/v1/audio/speech") = false := by simp [hne]
      rw [hee]
      simp

/-- Witness for C8: unsupported and supported voices on the speech endpoint,
and voice-independence on the chat endpoint. -/
theorem voice_check_only_on_speech_witness :
    validate_model_access [ttsModel] (some "tts-1") "/v1/audio/speech"
      (some "bad") 0 = .error ⟨400, .voiceUnsupported "bad"⟩ ∧
    validate_model_access [ttsModel] (some "tts-1") "/v1/audio/speech"
      (some "alloy") 0 = .ok () ∧
    validate_model_access [gpt4Chat] (some "gpt-4") "/v1/chat/completions"
      (some "bad") 0 =
      validate_model_access [gpt4Chat] (some "gpt-4") "/v1/chat/completions"
        none 0 :=
  ⟨(voice_check_only_on_speech.1 [ttsModel] "tts-1" ttsModel "bad" 0 rfl rfl
      (by decide)).1 (by decide),
   (voice_check_only_on_speech.1 [ttsModel] "tts-1" ttsModel "alloy" 0 rfl rfl
      (by decide)).2 (by decide),
   voice_check_only_on_speech.2 [gpt4Chat] (some "gpt-4")
     "/v1/chat/completions" (some "bad") 0 (by decide)⟩

/-! ## Claim C9 -/

/-- Claim C9: authentication runs before the handler body — a missing
Authorization header is a 401, a key resolving to no user is a 401, a banned
user is a 403, and in each case the handler is never entered and no provider
is contacted. -/
theorem auth_rejected_before_handler (env : Env) (authHeader : Option String)
    (data : ChatReq) :
    (authHeader = none →
      run_chat_completions env authHeader data =
        ⟨.error ⟨401, .noApiKey⟩, [], false⟩) ∧
    (∀ t, authHeader = some t → t ≠ "" →
      get_user env.db (pyReplace t "Bearer " "") = none →
      run_chat_completions env authHeader data =
        ⟨.error ⟨401, .keyNotFound⟩, [], false⟩) ∧
    (∀ t u, authHeader = some t → t ≠ "" →
      get_user env.db (pyReplace t "Bearer " "") = some u → u.banned = true →
      run_chat_completions env authHeader data =
        ⟨.error ⟨403, .bannedKey⟩, [], false⟩) := by
  refine ⟨?_, ?_, ?_⟩
  · intro hnone
    subst hnone
    rfl
  · intro t ht htne huser
    subst ht
    unfold run_chat_completions authentication
    have hk : get_api_key (some t) = .ok (pyReplace t "Bearer " "") := by
      unfold get_api_key
      simp only []
      rw [if_neg (by simp [htne])]
    rw [hk]
    simp only []
    unfold validate_user
    rw [huser]
  · intro t u ht htne huser hban
    subst ht
    unfold run_chat_completions authentication
    have hk : get_api_key (some t) = .ok (pyReplace t "Bearer " "") := by
      unfold get_api_key
      simp only []
      rw [if_neg (by simp [htne])]
    rw [hk]
    simp only []
    unfold validate_user
    rw [huser]
    simp only []
    rw [if_pos hban]

/-- Witness for C9: no header, unknown key, banned key. -/
theorem auth_rejected_before_handler_witness :
    run_chat_completions envMain none plainChatReq =
      ⟨.error ⟨401, .noApiKey⟩, [], false⟩ ∧
    run_chat_completions envMain (some "Bearer zz") plainChatReq =
      ⟨.error ⟨401, .keyNotFound⟩, [], false⟩ ∧
    run_chat_completions envMain (some "Bearer k2") plainChatReq =
      ⟨.error ⟨403, .bannedKey⟩, [], false⟩ :=
  ⟨(auth_rejected_before_handler envMain none plainChatReq).1 rfl,
   (auth_rejected_before_handler envMain (some "Bearer zz") plainChatReq).2.1
     "Bearer zz" rfl (by decide) rfl,
   (auth_rejected_before_handler envMain (some "Bearer k2") plainChatReq).2.2
     "Bearer k2" bobUser rfl (by decide) rfl rfl⟩

/-! ## Claim C10 -/

/-- Claim C10: with a non-empty provider_name override the chosen provider is
a function of the registry and the name alone — two chat requests that differ
only in messages and tool definitions resolve identically. -/
theorem override_choice_ignores_content (providers : List Provider)
    (model name : String) (hname : name ≠ "")
    (messages1 messages2 : List ChatMessage) (tools1 tools2 : List String) :
    chatSelectProvider providers ⟨model, messages1, tools1, name⟩ =
      chatSelectProvider providers ⟨model, messages2, tools2, name⟩ := by
  simp [chatSelectProvider, hname]

/-- Witness for C10: an image-bearing, tool-bearing request and a bare request
with the same override resolve identically. -/
theorem override_choice_ignores_content_witness :
    chatSelectProvider [providerA, visionProviderB]
        ⟨"gpt-4", [imageMessage], ["get_weather"], "A"⟩ =
      chatSelectProvider [providerA, visionProviderB] ⟨"gpt-4", [], [], "A"⟩ :=
  override_choice_ignores_content [providerA, visionProviderB] "gpt-4" "A"
    (by decide) [imageMessage] [] ["get_weather"] []

/-! ## Claim C2 -/

/-- Counterexample to claim C2 as stated: provider `B` exists in the registry
but does not list `gpt-4` among its supported models; the override path still
returns `B` instead of failing with NoProviderAvailableError. -/
theorem override_returns_provider_without_model_support :
    chatSelectProvider [providerNoGpt] ⟨"gpt-4", [], [], "B"⟩ =
      .ok providerNoGpt ∧
    providerNoGpt.supported_models.contains "gpt-4" = false :=
  ⟨rfl, rfl⟩

/-- Claim C2 (amended): with a non-empty provider_name, selection is exactly
the by-name registry lookup — it returns the provider of that name whenever
one exists, whether or not the provider declares support for the requested
model id, and fails with NoProviderAvailableError only when no provider of
that name exists; it never substitutes a provider of another name and never
falls back to automatic selection. -/
theorem override_is_exact_name_lookup (providers : List Provider)
    (data : ChatReq) (hname : data.provider_name ≠ "") :
    (∀ p, get_provider_by_name providers data.provider_name = some p →
      chatSelectProvider providers data = .ok p) ∧
    (get_provider_by_name providers data.provider_name = none →
      chatSelectProvider providers data =
        .error ⟨503, .noProviderAvailable⟩) ∧
    (∀ p, chatSelectProvider providers data = .ok p →
      p ∈ providers ∧ p.name = data.provider_name) := by
  have hsel : chatSelectProvider providers data =
      match get_provider_by_name providers data.provider_name with
      | none => .error ⟨503, .noProviderAvailable⟩
      | some p => .ok p := by
    unfold chatSelectProvider unified_get_provider
    rw [if_pos hname, if_pos hname]
  refine ⟨?_, ?_, ?_⟩
  · intro p hp
    rw [hsel, hp]
  · intro hp
    rw [hsel, hp]
  · intro p hp
    rw [hsel] at hp
    cases hfind : get_provider_by_name providers data.provider_name with
    | none =>
      rw [hfind] at hp
      exact Except.noConfusion hp
    | some q =>
      rw [hfind] at hp
      simp only [] at hp
      cases hp
      unfold get_provider_by_name at hfind
      refine ⟨List.mem_of_find?_eq_some hfind, ?_⟩
      have := List.find?_some hfind
      exact beq_iff_eq.mp this

/-- Witness for the amended C2 at a concrete registry and request. -/
theorem override_is_exact_name_lookup_witness :
    chatSelectProvider [providerA] ⟨"gpt-4", [], [], "A"⟩ = .ok providerA :=
  (override_is_exact_name_lookup [providerA] ⟨"gpt-4", [], [], "A"⟩
    (by decide)).1 providerA rfl

/-! ## Claim C6 -/

/-- The only error the provider-choice step can produce is the 503
NoProviderAvailableError. -/
theorem unified_get_provider_error_is_503 (providers : List Provider)
    (model : String) (vision_required tools_required : Bool) (name : String)
    (e : ApiError)
    (h : unified_get_provider providers model vision_required tools_required
        name = .error e) : e = ⟨503, .noProviderAvailable⟩ := by
  unfold unified_get_provider at h
  cases hopt : (if name ≠ "" then get_provider_by_name providers name
      else get_best_provider providers model vision_required tools_required) with
  | none =>
    rw [hopt] at h
    simp only [] at h
    cases h
    rfl
  | some p =>
    rw [hopt] at h
    simp only [] at h
    exact Except.noConfusion h

/-- Claim C6: when provider selection yields no provider, the request fails
with NoProviderAvailableError carrying HTTP status 503 and no upstream
backend is contacted. -/
theorem no_provider_503_no_upstream (env : Env) (data : ChatReq) :
    (∀ e, chatSelectProvider env.providers data = .error e →
      e = ⟨503, .noProviderAvailable⟩) ∧
    (chatSelectProvider env.providers data =
        .error ⟨503, .noProviderAvailable⟩ →
      (chat_completions_handler env data).result =
        .error ⟨503, .noProviderAvailable⟩ ∧
      (chat_completions_handler env data).contacted = []) := by
  constructor
  · intro e he
    unfold chatSelectProvider at he
    by_cases hname : data.provider_name ≠ ""
    · rw [if_pos hname] at he
      exact unified_get_provider_error_is_503 _ _ _ _ _ _ he
    · rw [if_neg hname] at he
      exact unified_get_provider_error_is_503 _ _ _ _ _ _ he
  · intro hsel
    unfold chat_completions_handler
    rw [hsel]
    exact ⟨rfl, rfl⟩

/-- Witness for C6: an empty provider registry yields the 503 with no
upstream contact. -/
theorem no_provider_503_no_upstream_witness :
    (chat_completions_handler envEmpty plainChatReq).result =
      .error ⟨503, .noProviderAvailable⟩ ∧
    (chat_completions_handler envEmpty plainChatReq).contacted = [] :=
  (no_provider_503_no_upstream envEmpty plainChatReq).2 rfl

/-! ## Claim C7 -/

/-- Claim C7 fails on the code: an unexpected adapter exception is answered
with HTTP 500 whose detail is the full `traceback.format_exc()` text — the
traceback is sent to the caller rather than being replaced by a generic
message (the `except Exception` arm of `chat_completions` raises
`HTTPException(status_code=500, detail=traceback.format_exc())`). -/
theorem unexpected_exception_echoes_traceback_to_caller :
    (run_chat_completions envRaising (some "Bearer k1") plainChatReq).result =
      .error ⟨500, .tracebackText tracebackDemo⟩ ∧
    (run_chat_completions envRaising (some "Bearer k1") plainChatReq).contacted
      = ["A"] :=
  ⟨rfl, rfl⟩

/-! ## Claim C3 -/

/-- One message triggers the vision detector iff its content is a parts list
holding an image_url item. -/
theorem message_has_image_iff (m : ChatMessage) :
    (match m.content with
     | .parts content => content.any (fun c => c.type == "image_url")
     | .str _ => false) = true ↔
    ∃ ps, m.content = .parts ps ∧ ∃ c ∈ ps, c.type = "image_url" := by
  cases hc : m.content with
  | str s => simp
  | parts ps => simp [List.any_eq_true]

/-- On the automatic path with a vision-requiring request, any provider the
selector returns is vision-capable and comes from the registry. -/
theorem auto_selection_vision_capable (env : Env) (data : ChatReq)
    (hname : data.provider_name = "")
    (hv : has_vision_requirement data.messages = true) (p : Provider)
    (hp : chatSelectProvider env.providers data = .ok p) :
    p ∈ env.providers ∧ "vision" ∈ p.capability_support := by
  unfold chatSelectProvider at hp
  rw [if_neg (by simp [hname])] at hp
  simp only [] at hp
  rw [hv] at hp
  unfold unified_get_provider at hp
  rw [if_neg (by simp)] at hp
  simp only [] at hp
  cases hbest : get_best_provider env.providers data.model true
      (!(data.tools == [])) with
  | none =>
    rw [hbest] at hp
    exact Except.noConfusion hp
  | some q =>
    rw [hbest] at hp
    simp only [] at hp
    cases hp
    unfold get_best_provider at hbest
    have hmemf := selectBest_mem _ _ hbest
    have hmem := List.mem_filter.mp hmemf
    refine ⟨hmem.1, ?_⟩
    have helig := hmem.2
    simp [eligibleProvider] at helig
    exact helig.1.1.2

/-- Claim C3: the vision detector returns true iff some message content list
holds an image_url item; and a chat request without provider override that
requires vision is only ever routed to a provider whose capability_support
includes vision — when no vision-capable provider exists, the outcome is the
503 NoProviderAvailableError with no upstream contact, even if other
providers support the model for text. -/
theorem vision_detection_and_vision_only_routing :
    (∀ messages : List ChatMessage,
      has_vision_requirement messages = true ↔
        ∃ m ∈ messages, ∃ ps, m.content = .parts ps ∧
          ∃ c ∈ ps, c.type = "image_url") ∧
    (∀ (env : Env) (data : ChatReq), data.provider_name = "" →
      has_vision_requirement data.messages = true →
      (∀ p, chatSelectProvider env.providers data = .ok p →
        "vision" ∈ p.capability_support) ∧
      (∀ n, n ∈ (chat_completions_handler env data).contacted →
        ∃ p ∈ env.providers, p.name = n ∧ "vision" ∈ p.capability_support) ∧
      ((∀ p ∈ env.providers, "vision" ∉ p.capability_support) →
        (chat_completions_handler env data).result =
          .error ⟨503, .noProviderAvailable⟩ ∧
        (chat_completions_handler env data).contacted = [])) := by
  constructor
  · intro messages
    simp only [has_vision_requirement, List.any_eq_true, message_has_image_iff]
  · intro env data hname hv
    refine ⟨?_, ?_, ?_⟩
    · intro p hp
      exact (auto_selection_vision_capable env data hname hv p hp).2
    · intro n hn
      unfold chat_completions_handler at hn
      cases hres : chatSelectProvider env.providers data with
      | error e =>
        rw [hres] at hn
        simp only [] at hn
        exact absurd hn (List.not_mem_nil n)
      | ok p =>
        rw [hres] at hn
        simp only [] at hn
        have hkey := auto_selection_vision_capable env data hname hv p hres
        by_cases hcls : (env.provider_classes.contains p.name) = true
        · rw [if_neg (by rw [hcls]; decide)] at hn
          cases hada : env.adapter p.name data with
          | ok status body =>
            rw [hada] at hn
            simp only [] at hn
            rcases List.mem_singleton.mp hn with rfl
            exact ⟨p, hkey.1, rfl, hkey.2⟩
          | httpExc e =>
            rw [hada] at hn
            simp only [] at hn
            rcases List.mem_singleton.mp hn with rfl
            exact ⟨p, hkey.1, rfl, hkey.2⟩
          | noProviderExc =>
            rw [hada] at hn
            simp only [] at hn
            rcases List.mem_singleton.mp hn with rfl
            exact ⟨p, hkey.1, rfl, hkey.2⟩
          | otherExc tb =>
            rw [hada] at hn
            simp only [] at hn
            rcases List.mem_singleton.mp hn with rfl
            exact ⟨p, hkey.1, rfl, hkey.2⟩
        · rw [if_pos (by rw [Bool.eq_false_iff.mpr hcls]; decide)] at hn
          simp only [] at hn
          exact absurd hn (List.not_mem_nil n)
    · intro hall
      have hnone : get_best_provider env.providers data.model true
          (!(data.tools == [])) = none := by
        unfold get_best_provider
        have hfil : env.providers.filter
            (eligibleProvider data.model true (!(data.tools == []))) = [] := by
          rw [List.filter_eq_nil_iff]
          intro p hp
          simp [eligibleProvider, hall p hp]
        rw [hfil]
        rfl
      have hsel : chatSelectProvider env.providers data =
          .error ⟨503, .noProviderAvailable⟩ := by
        unfold chatSelectProvider
        rw [if_neg (by simp [hname])]
        simp only []
        rw [hv]
        unfold unified_get_provider
        rw [if_neg (by simp)]
        simp only []
        rw [hnone]
      unfold chat_completions_handler
      rw [hsel]
      exact ⟨rfl, rfl⟩

/-- Witness for C3: the image request, the spec scenario (vision-capable `B`
chosen over healthier non-vision `A`), and the 503 when only non-vision
providers exist. -/
theorem vision_detection_and_vision_only_routing_witness :
    has_vision_requirement [imageMessage] = true ∧
    chatSelectProvider envMain.providers visionChatReq =
      .ok visionProviderB ∧
    "vision" ∈ visionProviderB.capability_support ∧
    (chat_completions_handler envNoVision visionChatReq).result =
      .error ⟨503, .noProviderAvailable⟩ ∧
    (chat_completions_handler envNoVision visionChatReq).contacted = [] :=
  ⟨rfl, rfl,
   (vision_detection_and_vision_only_routing.2 envMain visionChatReq rfl
      rfl).1 visionProviderB rfl,
   ((vision_detection_and_vision_only_routing.2 envNoVision visionChatReq rfl
      rfl).2.2 (by decide)).1,
   ((vision_detection_and_vision_only_routing.2 envNoVision visionChatReq rfl
      rfl).2.2 (by decide)).2⟩

/-! ## Claim C4 -/

/-- Claim C4: selector determinism — with a fixed Provider Registry snapshot
(fixed up to enumeration order, provider names being unique) and fixed
request requirements, the selector returns the same provider; two consecutive
calls on identical inputs agree as the special case of an unchanged list. -/
theorem get_best_provider_deterministic (l1 l2 : List Provider)
    (model : String) (vision_required tools_required : Bool)
    (hnames : l1.Pairwise (fun p q => p.name ≠ q.name))
    (hperm : l1.Perm l2) :
    get_best_provider l1 model vision_required tools_required =
      get_best_provider l2 model vision_required tools_required := by
  unfold get_best_provider
  exact selectBest_perm _ _
    (hnames.sublist (List.filter_sublist l1))
    (hperm.filter _)

/-- Witness for C4: two enumeration orders of the same two-provider snapshot
select the same provider. -/
theorem get_best_provider_deterministic_witness :
    ([providerA, visionProviderB].Pairwise (fun p q => p.name ≠ q.name)) ∧
    get_best_provider [providerA, visionProviderB] "gpt-4" false false =
      get_best_provider [visionProviderB, providerA] "gpt-4" false false :=
  ⟨by decide,
   get_best_provider_deterministic [providerA, visionProviderB]
     [visionProviderB, providerA] "gpt-4" false false (by decide) (by decide)⟩

end Crusont
